import Mathlib

/-!
Shallow embedding of the CDash reporter of this repository
(lib/spack/spack/reporters/cdash.py).

Text is modelled as lists of characters (`Str`).  The Python string
primitives the reporter relies on -- `str.find`, slicing with a negative
end index, `str.splitlines`, `xml.sax.saxutils.escape`, `urllib.urlencode`
with `quote_plus` -- are modelled explicitly, as are the two regular
expressions of the module (the phase-boundary marker and the buildId
pattern), specialised to the concrete patterns that appear in the source.
-/

abbrev Str := List Char

def str (s : String) : Str := s.toList

/-- Python `s.find(sub)`: index of the first occurrence of `sub` in `s`,
or `-1` when there is none. -/
def pyFind : Str → Str → Int
  | [], sub => if sub.isPrefixOf ([] : Str) then 0 else -1
  | c :: rest, sub =>
    if sub.isPrefixOf (c :: rest) then 0
    else if pyFind rest sub = -1 then -1 else pyFind rest sub + 1

/-- Python `s[0:e]` slicing, where `e` may be negative (counted from the
end of the string) and is clamped to the string's bounds. -/
def pySlice0 (s : Str) (e : Int) : Str :=
  s.take (max (if e < 0 then e + s.length else e) 0).toNat

/-- Python `s.splitlines()` for the line boundaries `\n`, `\r\n` and `\r`:
a trailing line terminator does not produce a final empty line. -/
def splitlinesAux : Str → Str → List Str
  | [], acc => if acc.isEmpty then [] else [acc.reverse]
  | '\r' :: '\n' :: rest, acc => acc.reverse :: splitlinesAux rest []
  | '\n' :: rest, acc => acc.reverse :: splitlinesAux rest []
  | '\r' :: rest, acc => acc.reverse :: splitlinesAux rest []
  | c :: rest, acc => splitlinesAux rest (c :: acc)

def splitlines (s : Str) : List Str := splitlinesAux s []

/-- `xml.sax.saxutils.escape` on a single character. -/
def escapeChar : Char → Str
  | '&' => str "&amp;"
  | '<' => str "&lt;"
  | '>' => str "&gt;"
  | c => [c]

/-- `xml.sax.saxutils.escape`: replace `&`, `<` and `>` by their XML
entities. -/
def xmlEscape (s : Str) : Str := s.flatMap escapeChar

/-- Python `'\n'.join(lines)`. -/
def joinLines (ls : List Str) : Str := List.intercalate (str "\n") ls

/-- cdash.py lines 31-38: the mapping from fine-grained Spack phases to
coarse CTest/CDash phases, as an association list in source order. -/
def map_phases_to_cdash : List (Str × Str) :=
  [(str "autoreconf", str "configure"),
   (str "cmake", str "configure"),
   (str "configure", str "configure"),
   (str "edit", str "configure"),
   (str "build", str "build"),
   (str "install", str "build")]

/-- Python `map_phases_to_cdash[p]` / `p in map_phases_to_cdash` combined
into a single lookup. -/
def lookupPhase (p : Str) : Option Str :=
  (map_phases_to_cdash.find? (fun e => e.1 = p)).map Prod.snd

/-- cdash.py line 41: `set(map_phases_to_cdash.values())`.  The set has
exactly the two elements below; iteration order is immaterial (the set is
only used to initialize the per-phase tables and for membership). -/
def cdash_phases : List Str := [str "configure", str "build"]

/-- The literal substring of the phase-boundary marker, cdash.py lines 92
and 119. -/
def phase_marker : Str := str "Executing phase: '"

/-- The greedy suffix part of `Executing phase: '(.*)'`: given the text
after the opening quote, the group runs to the last quote of the line
(there is no match without a closing quote). -/
def greedyGroup (rest : Str) : Option Str :=
  match rest.reverse.dropWhile (fun c => c ≠ '\'') with
  | [] => none
  | _ :: g => some g.reverse

/-- `phase_regexp.search(line)` for `re.compile(r"Executing phase: '(.*)'")`
(cdash.py line 92): the leftmost position where the whole pattern matches,
returning the captured group. -/
def regexSearch : Str → Option Str
  | [] => none
  | c :: rest =>
    if phase_marker.isPrefixOf (c :: rest) then
      match greedyGroup ((c :: rest).drop phase_marker.length) with
      | some g => some g
      | none => regexSearch rest
    else regexSearch rest

/-- cdash.py lines 117-126: the regular expression only runs when the cheap
`line.find("Executing phase: '")` gate fires; otherwise `match` stays
`None`. -/
def gatedMarkerMatch (line : Str) : Option Str :=
  if pyFind line phase_marker ≠ -1 then regexSearch line else none

/-- An event as returned by the external extractor `parse_log_events`:
`source_file` models the "either a string or the tuple `(None,)`"
convention tested at cdash.py line 169. -/
structure LogEvent where
  text : Str
  pre_context : List Str
  post_context : List Str
  source_file : Option Str
  source_line_no : Str
deriving DecidableEq

/-- An event after `clean_log_event` (cdash.py lines 160-175). -/
structure CleanEvent where
  text : Str
  pre_context : Str
  post_context : Str
  source_file : Str
  source_line_no : Str
deriving DecidableEq

/-- cdash.py lines 160-175. -/
def clean_log_event (e : LogEvent) : CleanEvent :=
  match e.source_file with
  | none =>
    { text := xmlEscape e.text
      pre_context := xmlEscape (joinLines e.pre_context)
      post_context := xmlEscape (joinLines e.post_context)
      source_file := []
      source_line_no := [] }
  | some sf =>
    { text := xmlEscape e.text
      pre_context := xmlEscape (joinLines e.pre_context)
      post_context := xmlEscape (joinLines e.post_context)
      source_file := xmlEscape sf
      source_line_no := e.source_line_no }

/-- The per-phase entry of `report_data` (cdash.py lines 82-86 plus the
fields added at lines 150, 177-178). -/
structure PhaseData where
  loglines : List Str
  status : Nat
  starttime : Nat
  endtime : Nat
  log : Option Str
  errors : Option (List CleanEvent)
  warnings : Option (List CleanEvent)
deriving DecidableEq

/-- cdash.py lines 82-86: the initial per-phase record. -/
def initPhaseData (t0 : Nat) : PhaseData :=
  { loglines := [], status := 0, starttime := t0, endtime := t0,
    log := none, errors := none, warnings := none }

/-- The phase table of `report_data`, as an association list keyed by the
coarse phase name.  The non-phase keys of the Python dict (buildname,
site, specs, ...) are irrelevant to the phase loop and are omitted. -/
abbrev ReportData := List (Str × PhaseData)

/-- Python `report_data[k]` (an absent key is a `KeyError`; callers model
it with `Option`/`Except`). -/
def getPhase (rd : ReportData) (k : Str) : Option PhaseData :=
  (rd.find? (fun e => e.1 = k)).map Prod.snd

/-- Python `report_data[k] = v` on a key already present. -/
def setPhase (rd : ReportData) (k : Str) (v : PhaseData) : ReportData :=
  rd.map (fun e => if e.1 = k then (e.1, v) else e)

/-- In-place mutation of the entry at an existing key. -/
def updatePhase (rd : ReportData) (k : Str) (f : PhaseData → PhaseData) : ReportData :=
  rd.map (fun e => if e.1 = k then (e.1, f e.2) else e)

/-- cdash.py lines 81-86: one initialized entry per element of
`cdash_phases`. -/
def initReportData (t0 : Nat) : ReportData :=
  cdash_phases.map (fun p => (p, initPhaseData t0))

/-- The mutable state of the segmentation pass: the coarse-phase cursor
`cdash_phase` (cdash.py line 93, initialized once, outside the package
loop), the encountered-phases list (line 89) and the phase table. -/
structure SegState where
  cdash_phase : Str
  phases_encountered : List Str
  report_data : ReportData
deriving DecidableEq

def segInit (t0 : Nat) : SegState :=
  { cdash_phase := [], phases_encountered := [], report_data := initReportData t0 }

/-- One iteration of the line loop, cdash.py lines 114-144.  On a marker
whose fine-grained name is unmapped, the code sets `current_phase = ''`
and continues; the `cdash_phase` cursor is left as it was. -/
def processLine (pkgName : Str) (st : SegState) (line : Str) : SegState :=
  match gatedMarkerMatch line with
  | some current_phase =>
    match lookupPhase current_phase with
    | none => st
    | some cp =>
      { cdash_phase := cp
        phases_encountered :=
          if st.phases_encountered.contains cp then st.phases_encountered
          else st.phases_encountered ++ [cp]
        report_data :=
          updatePhase st.report_data cp (fun pd =>
            { pd with loglines :=
                pd.loglines ++ [cp ++ str " output for " ++ pkgName ++ str ":"] }) }
  | none =>
    if st.cdash_phase ≠ [] then
      { st with report_data :=
          updatePhase st.report_data st.cdash_phase (fun pd =>
            { pd with loglines := pd.loglines ++ [xmlEscape line] }) }
    else st

/-- A built unit and its captured output (`stdout` may be absent,
cdash.py line 105). -/
structure Package where
  name : Str
  stdout : Option Str
deriving DecidableEq

/-- cdash.py lines 104-144: one package's output, split into lines and
folded through the line loop. -/
def processPackage (st : SegState) (p : Package) : SegState :=
  match p.stdout with
  | none => st
  | some out => (splitlines out).foldl (processLine p.name) st

/-- cdash.py lines 103-144: the whole segmentation pass over
`report_data['specs']`. -/
def segmentSpecs (t0 : Nat) (specs : List (List Package)) : SegState :=
  specs.foldl (fun st pkgs => pkgs.foldl processPackage st) (segInit t0)

/-- One iteration of the phase loop, cdash.py lines 148-183 (log joining,
event extraction, status computation and the build-only cleaned event
lists).  Accessing a phase missing from `report_data` is a Python
`KeyError`, modelled as `Except.error`.  The extractor `parse_log_events`
is an external collaborator and is a parameter. -/
def processPhase (extractor : List Str → List LogEvent × List LogEvent)
    (t0 : Nat) (rd : ReportData) (phase : Str) : Except Unit ReportData :=
  match getPhase rd phase with
  | none => .error ()
  | some pd0 =>
    let pd1 := { pd0 with starttime := t0, log := some (joinLines pd0.loglines) }
    let ew := extractor pd1.loglines
    let nerrors := ew.1.length
    let pd2 := if phase = str "configure" ∧ nerrors > 0 then { pd1 with status := 1 } else pd1
    let pd3 :=
      if phase = str "build" then
        { pd2 with errors := some (ew.1.map clean_log_event),
                   warnings := some (ew.2.map clean_log_event) }
      else pd2
    .ok (setPhase rd phase pd3)

/-- cdash.py lines 77-183 without the per-phase rendering and upload
(modelled separately by `renderPhaseFile` and `uploadRequestUrl`): the
segmentation pass, then `phases_encountered.append('update')` (line 147),
then the phase loop.  The first phase access that raises a `KeyError`
aborts the loop, as in Python. -/
def build_report (extractor : List Str → List LogEvent × List LogEvent)
    (t0 : Nat) (specs : List (List Package)) : Except Unit ReportData :=
  let st := segmentSpecs t0 specs
  let phases := st.phases_encountered ++ [str "update"]
  phases.foldlM (processPhase extractor t0) st.report_data

/-- The observable outcome for one phase's report file: whether the file
exists after the write block, the chunks written into it (in order), and
whether the block completed without raising. -/
structure FileOutcome where
  fileExists : Bool
  content : List Str
  completed : Bool
deriving DecidableEq

/-- cdash.py lines 190-198: `codecs.open(..., 'w', ...)` creates
(truncates) the file at entry; the Site template is resolved and its
rendering written; then the phase-specific template is resolved and its
rendering written.  Template resolution and rendering may fail (modelled
by `Option`); the `with` block closes the handle on every exit path but
never removes the file. -/
def renderPhaseFile (siteTemplate phaseTemplate : Option (ReportData → Option Str))
    (rd : ReportData) : FileOutcome :=
  match siteTemplate with
  | none => { fileExists := true, content := [], completed := false }
  | some t =>
    match t rd with
    | none => { fileExists := true, content := [], completed := false }
    | some s1 =>
      match phaseTemplate with
      | none => { fileExists := true, content := [s1], completed := false }
      | some t2 =>
        match t2 rd with
        | none => { fileExists := true, content := [s1], completed := false }
        | some s2 => { fileExists := true, content := [s1, s2], completed := true }

/-- The characters Python 2's `urllib.quote` keeps unescaped. -/
def isSafeChar (c : Char) : Bool := c.isAlphanum ∨ c = '_' ∨ c = '.' ∨ c = '-'

/-- An uppercase hexadecimal digit. -/
def hexDigit (n : Nat) : Char :=
  if n < 10 then Char.ofNat (48 + n) else Char.ofNat (55 + n)

/-- `urllib.quote_plus` over an ASCII string: safe characters are kept,
a space becomes `+`, everything else a percent escape with uppercase
hexadecimal digits. -/
def quote_plus (s : Str) : Str :=
  s.flatMap (fun c =>
    if c = ' ' then ['+']
    else if isSafeChar c then [c]
    else ['%', hexDigit (c.toNat / 16 % 16), hexDigit (c.toNat % 16)])

/-- `urllib.urlencode` over an ordered parameter list (the dict literal of
cdash.py lines 237-242, in source order): `quote_plus` applied to keys and
values, pairs joined by `&`. -/
def urlencode : List (Str × Str) → Str
  | [] => []
  | [kv] => quote_plus kv.1 ++ str "=" ++ quote_plus kv.2
  | kv :: rest => quote_plus kv.1 ++ str "=" ++ quote_plus kv.2 ++ str "&" ++ urlencode rest

/-- cdash.py lines 226-250: `upload` returns immediately when no upload
URL is configured (modelled as the empty string, Python falsy); otherwise
the PUT request URL is the configured URL, `&`, and
`urlencode(paramsDict)`.  `paramsDict` is a Python 2 dict literal (this
module is Python-2-only: it imports `cStringIO`), written in source order
build, site, stamp, MD5; but `urlencode` iterates `dict.items()`, and
CPython 2.7 (64-bit, default non-randomized string hash) places the four
keys in hash-slot order 0 = stamp, 3 = MD5, 5 = build, 7 = site (site
collides with build at slot 5 and probes to 7; MD5 then collides at 7 and
probes to 3), so `items()` yields stamp, MD5, build, site — the order
modelled here. -/
def uploadRequestUrl (cdash_upload_url buildname site buildstamp md5sum : Str) : Option Str :=
  if cdash_upload_url = [] then none
  else some (cdash_upload_url ++ str "&" ++
    urlencode [(str "stamp", buildstamp), (str "MD5", md5sum),
               (str "build", buildname), (str "site", site)])

def buildId_open : Str := str "<buildId>"

def buildId_close : Str := str "</buildId>"

/-- One anchored attempt of `<buildId>([0-9]+)</buildId>` at the head of
`s`: the opening literal, a nonempty maximal digit run, the closing
literal.  (Backtracking inside `[0-9]+` cannot help, since the closing
literal starts with a non-digit.) -/
def buildIdAt (s : Str) : Option Str :=
  if buildId_open.isPrefixOf s then
    let rest := s.drop buildId_open.length
    let ds := rest.takeWhile Char.isDigit
    if ds ≠ [] ∧ buildId_close.isPrefixOf (rest.drop ds.length) then some ds else none
  else none

/-- `buildId_regexp.search(response)` for
`re.compile("<buildId>([0-9]+)</buildId>")` (cdash.py line 234): leftmost
match, returning the digit group. -/
def buildIdSearch : Str → Option Str
  | [] => none
  | c :: rest =>
    match buildIdAt (c :: rest) with
    | some g => some g
    | none => buildIdSearch rest

/-- cdash.py lines 252-262: parse the buildId out of the response body;
when present, the summary link is `cdash_upload_url[0:find("submit.php")]`
followed by `buildSummary.php?buildid=` and the id; when absent, nothing
is shown and nothing is raised. -/
def summaryUrl (cdash_upload_url response : Str) : Option Str :=
  match buildIdSearch response with
  | none => none
  | some buildId =>
    some (pySlice0 cdash_upload_url (pyFind cdash_upload_url (str "submit.php"))
      ++ str "buildSummary.php?buildid=" ++ buildId)

/-- Modelled from the spec: the external Event Extractor
`parse_log_events` (spack.util.log_parse) is not under src/.  Per spec
section 4.3 it is a pure function from the ordered log lines of one phase
to ordered error and warning events, where each event's `text` is the
matched line, `pre_context`/`post_context` are the lines immediately
surrounding the match within a bounded window, and source file and line
number may be absent together.  Here a line is classified as an error when
it contains `error` and as a warning when it contains `warning`, with a
two-line context window and no source file. -/
def parse_log_events (lines : List Str) : List LogEvent × List LogEvent :=
  let mk : Nat × Str → LogEvent := fun p =>
    { text := p.2
      pre_context := (lines.take p.1).drop (p.1 - 2)
      post_context := (lines.drop (p.1 + 1)).take 2
      source_file := none
      source_line_no := [] }
  ((lines.enum.filter (fun p => pyFind p.2 (str "error") ≠ -1)).map mk,
   (lines.enum.filter (fun p => pyFind p.2 (str "warning") ≠ -1)).map mk)

/-! ## Helper lemmas -/

theorem pyFind_ge_neg_one (s sub : Str) : -1 ≤ pyFind s sub := by
  induction s with
  | nil => unfold pyFind; split <;> omega
  | cons c rest ih => unfold pyFind; split_ifs <;> omega

theorem regexSearch_eq_none_of_pyFind (s : Str) (h : pyFind s phase_marker = -1) :
    regexSearch s = none := by
  induction s with
  | nil => rfl
  | cons c rest ih =>
    by_cases hp : phase_marker.isPrefixOf (c :: rest)
    · simp [pyFind, hp] at h
    · by_cases hr : pyFind rest phase_marker = -1
      · simp [regexSearch, hp, ih hr]
      · have hge := pyFind_ge_neg_one rest phase_marker
        simp [pyFind, hp, hr] at h
        omega

theorem gated_eq_search (line : Str) : gatedMarkerMatch line = regexSearch line := by
  unfold gatedMarkerMatch
  by_cases h : pyFind line phase_marker = -1
  · simp [h, regexSearch_eq_none_of_pyFind line h]
  · simp [h]

theorem getPhase_updatePhase (rd : ReportData) (k : Str) (f : PhaseData → PhaseData) :
    getPhase (updatePhase rd k f) k = (getPhase rd k).map f := by
  induction rd with
  | nil => rfl
  | cons e rest ih =>
    by_cases he : e.1 = k
    · rw [show updatePhase (e :: rest) k f = (e.1, f e.2) :: updatePhase rest k f from by
        simp [updatePhase, he]]
      unfold getPhase
      rw [List.find?_cons_of_pos _ (by simp [he]), List.find?_cons_of_pos _ (by simp [he])]
      rfl
    · rw [show updatePhase (e :: rest) k f = e :: updatePhase rest k f from by
        simp [updatePhase, he]]
      unfold getPhase
      rw [List.find?_cons_of_neg _ (by simp [he]), List.find?_cons_of_neg _ (by simp [he])]
      exact ih

theorem getPhase_setPhase (rd : ReportData) (k : Str) (v : PhaseData) :
    getPhase (setPhase rd k v) k = (getPhase rd k).map (fun _ => v) := by
  induction rd with
  | nil => rfl
  | cons e rest ih =>
    by_cases he : e.1 = k
    · rw [show setPhase (e :: rest) k v = (e.1, v) :: setPhase rest k v from by
        simp [setPhase, he]]
      unfold getPhase
      rw [List.find?_cons_of_pos _ (by simp [he]), List.find?_cons_of_pos _ (by simp [he])]
      rfl
    · rw [show setPhase (e :: rest) k v = e :: setPhase rest k v from by
        simp [setPhase, he]]
      unfold getPhase
      rw [List.find?_cons_of_neg _ (by simp [he]), List.find?_cons_of_neg _ (by simp [he])]
      exact ih

theorem pySlice0_ofNat (s : Str) (k : Nat) : pySlice0 s ((k : Nat) : Int) = s.take k := by
  unfold pySlice0
  rw [if_neg (by omega)]
  congr 1
  omega

theorem pySlice0_neg_one (s : Str) : pySlice0 s (-1) = s.take (s.length - 1) := by
  unfold pySlice0
  rw [if_pos (by omega)]
  congr 1
  omega

/-- Folding the line loop over marker-free lines while a phase is active
appends each line, escaped, to the active phase's buffer and leaves the
cursor unchanged. -/
theorem seg_append_no_marker (pkgName : Str) (ls : List Str) :
    ∀ (st : SegState) (pd : PhaseData), st.cdash_phase ≠ [] →
    getPhase st.report_data st.cdash_phase = some pd →
    (∀ l ∈ ls, regexSearch l = none) →
    (ls.foldl (processLine pkgName) st).cdash_phase = st.cdash_phase ∧
    getPhase (ls.foldl (processLine pkgName) st).report_data st.cdash_phase
      = some { pd with loglines := pd.loglines ++ ls.map xmlEscape } := by
  induction ls with
  | nil =>
    intro st pd h1 h2 _
    refine ⟨rfl, ?_⟩
    simpa using h2
  | cons l rest ih =>
    intro st pd h1 h2 hnm
    have hl : gatedMarkerMatch l = none := by
      rw [gated_eq_search]
      exact hnm l (List.mem_cons_self l rest)
    have hstep : processLine pkgName st l
        = { st with report_data := (updatePhase st.report_data st.cdash_phase
            (fun pd => { pd with loglines := pd.loglines ++ [xmlEscape l] })) } := by
      unfold processLine
      rw [hl]
      simp [h1]
    have h2' : getPhase (updatePhase st.report_data st.cdash_phase
          (fun pd => { pd with loglines := pd.loglines ++ [xmlEscape l] })) st.cdash_phase
        = some { pd with loglines := pd.loglines ++ [xmlEscape l] } := by
      rw [getPhase_updatePhase, h2]
      rfl
    have hrec := ih
      { st with report_data := (updatePhase st.report_data st.cdash_phase
          (fun pd => { pd with loglines := pd.loglines ++ [xmlEscape l] })) }
      { pd with loglines := pd.loglines ++ [xmlEscape l] }
      h1 h2' (fun x hx => hnm x (List.mem_cons_of_mem _ hx))
    rw [List.foldl_cons, hstep]
    refine ⟨hrec.1, ?_⟩
    rw [hrec.2]
    simp [List.append_assoc]

/-! ## Concrete inputs used by the evaluation theorems -/

/-- A unit whose output opens the mapped phase `configure`, then hits the
unmapped marker `'package'`, then emits one more line. -/
def c1_package : Package :=
  { name := str "pkg",
    stdout := some
      (str "Executing phase: 'configure'\nlineA\nExecuting phase: 'package'\nSECRET") }

/-- A unit whose output contains no phase-boundary marker at all. -/
def c2_package : Package := { name := str "pkg", stdout := some (str "hello\nworld") }

/-- A unit whose build output contains an error line with a special
character. -/
def c3_package : Package :=
  { name := str "pkg", stdout := some (str "Executing phase: 'build'\nerror: x & y") }

/-! ## Claim theorems -/

/-- C1: the claim states that after a phase-boundary marker naming an
unmapped fine-grained phase (here `'package'`), every subsequent
non-marker line is appended to no coarse phase's buffer.  In the code only
`current_phase` is cleared (cdash.py line 130); the `cdash_phase` cursor
keeps its previous value, so the line `SECRET` following the unmapped
marker is appended, escaped, to the still-active `configure` buffer — the
exact misattribution the claim rules out. -/
theorem c1_unmapped_marker_lines_misattributed :
    (getPhase (segmentSpecs 0 [[c1_package]]).report_data (str "configure")).map
        PhaseData.loglines
      = some [str "configure output for pkg:", str "lineA", str "SECRET"] := by
  decide

/-- C2: the claim states that an input with no phase-marker lines makes
`build_report` complete normally with only the synthetic `update` phase
processed.  In the code `cdash_phases = set(map_phases_to_cdash.values())`
(line 41) contains only `configure` and `build`, so `report_data` never
gets an `update` entry, yet `'update'` is unconditionally appended to
`phases_encountered` (line 147); the phase loop's first access
`report_data['update']['starttime']` (line 149) then raises `KeyError`.
The segmentation itself does leave every coarse phase's buffer empty
(first two conjuncts); the run then aborts instead of processing `update`
(third conjunct), for every extractor. -/
theorem c2_update_phase_keyerror (extractor : List Str → List LogEvent × List LogEvent) :
    (getPhase (segmentSpecs 0 [[c2_package]]).report_data (str "configure")).map
        PhaseData.loglines = some []
    ∧ (getPhase (segmentSpecs 0 [[c2_package]]).report_data (str "build")).map
        PhaseData.loglines = some []
    ∧ build_report extractor 0 [[c2_package]] = .error () :=
  ⟨by decide, by decide, rfl⟩

/-- C3: the claim states that special characters reach every error/warning
event field escaped exactly once.  The segmenter escapes each raw line
before buffering it (cdash.py line 142), `parse_log_events` therefore
receives already-escaped lines, and `clean_log_event` escapes the event
text again (line 162): the raw line `error: x & y` is escaped once in the
joined phase log (first conjunct) but appears double-escaped, as
`&amp;amp;`, in the classified error event's text (second conjunct). -/
theorem c3_event_text_double_escaped :
    (getPhase (segmentSpecs 0 [[c3_package]]).report_data (str "build")).map
        (fun pd => joinLines pd.loglines)
      = some (str "build output for pkg:\nerror: x &amp; y")
    ∧ (processPhase parse_log_events 0 (segmentSpecs 0 [[c3_package]]).report_data
        (str "build")).map
          (fun rd => (getPhase rd (str "build")).map
            (fun pd => pd.errors.map (fun es => es.map CleanEvent.text)))
      = .ok (some (some [str "error: x &amp;amp; y"])) :=
  ⟨by decide, rfl⟩

/-- C4 counterexample: the claim states that when resolving or rendering
the phase-specific template fails, either no file or a fully-formed file
(site section plus phase body, i.e. both written chunks) exists.  With a
site template that renders and a phase template that fails to resolve, the
file exists and holds exactly one chunk — the site section only. -/
theorem c4_counterexample_partial_file :
    ¬ ((renderPhaseFile (some (fun _ => some (str "SITE"))) none []).fileExists = false
       ∨ (renderPhaseFile (some (fun _ => some (str "SITE"))) none []).content.length = 2) := by
  decide

/-- C4 amended: if the phase-specific template fails to resolve or to
render after the site section was rendered, the report file is left
behind containing exactly the site-identity section (the scoped
`codecs.open` block closes the handle but never removes the file). -/
theorem c4_site_only_file_on_phase_template_failure
    (siteT : ReportData → Option Str) (phaseTemplate : Option (ReportData → Option Str))
    (rd : ReportData) (s1 : Str) (hs : siteT rd = some s1)
    (hp : phaseTemplate = none ∨ ∃ t2, phaseTemplate = some t2 ∧ t2 rd = none) :
    renderPhaseFile (some siteT) phaseTemplate rd
      = { fileExists := true, content := [s1], completed := false } := by
  rcases hp with hp | ⟨t2, hp, h2⟩
  · simp [renderPhaseFile, hs, hp]
  · simp [renderPhaseFile, hs, hp, h2]

theorem c4_amended_witness :
    renderPhaseFile (some (fun _ => some (str "SITE"))) none []
      = { fileExists := true, content := [str "SITE"], completed := false } :=
  c4_site_only_file_on_phase_template_failure _ none [] _ rfl (Or.inl rfl)

/-- C5: after the status computation of the phase loop, the `configure`
phase's status is `1` exactly when the extractor returns at least one
error event for that phase's collected log lines, and stays `0` for zero
errors — the warning list never enters the computation (the extractor is
arbitrary, so the warning count is arbitrary). -/
theorem c5_configure_status_iff_errors
    (extractor : List Str → List LogEvent × List LogEvent) (t0 : Nat)
    (rd : ReportData) (pd : PhaseData)
    (h : getPhase rd (str "configure") = some pd) (h0 : pd.status = 0) :
    (∃ rd2, processPhase extractor t0 rd (str "configure") = .ok rd2)
    ∧ ∀ rd2, processPhase extractor t0 rd (str "configure") = .ok rd2 →
        (getPhase rd2 (str "configure")).map PhaseData.status
          = some (if 0 < (extractor pd.loglines).1.length then 1 else 0) := by
  unfold processPhase
  rw [h]
  constructor
  · exact ⟨_, rfl⟩
  · intro rd2 he
    injection he with he
    subst he
    rw [getPhase_setPhase, h]
    rw [if_neg (by decide : ¬ (str "configure" = str "build"))]
    by_cases hn : 0 < (extractor pd.loglines).1.length
    · rw [if_pos ⟨by decide, hn⟩]
      rw [if_pos hn]
      rfl
    · rw [if_neg (fun hh => hn hh.2)]
      rw [if_neg hn]
      simpa using h0

/-- An extractor returning one error and two warnings, for the C5
witness: the status must be 1 whatever the warning count. -/
def c5_extractor : List Str → List LogEvent × List LogEvent := fun _ =>
  ([{ text := str "error: boom", pre_context := [], post_context := [],
      source_file := none, source_line_no := [] }],
   [{ text := str "warning: a", pre_context := [], post_context := [],
      source_file := none, source_line_no := [] },
    { text := str "warning: b", pre_context := [], post_context := [],
      source_file := none, source_line_no := [] }])

theorem c5_witness :
    (∃ rd2, processPhase c5_extractor 0 (initReportData 0) (str "configure") = .ok rd2)
    ∧ ∀ rd2, processPhase c5_extractor 0 (initReportData 0) (str "configure") = .ok rd2 →
        (getPhase rd2 (str "configure")).map PhaseData.status = some 1 := by
  have h := c5_configure_status_iff_errors c5_extractor 0 (initReportData 0)
    (initPhaseData 0) (by decide) (by decide)
  exact ⟨h.1, fun rd2 he => by rw [h.2 rd2 he]; rfl⟩

/-- C6: when the server's response contains `<buildId>NNN</buildId>`, the
summary link is the configured base URL with everything from the first
occurrence of `submit.php` (at index `k`) onward replaced by
`buildSummary.php?buildid=NNN`; when the response contains no such
element, no summary link is produced and nothing fails (the result is
simply `none`). -/
theorem c6_summary_link (base response : Str) :
    (∀ (n : Str) (k : Nat), buildIdSearch response = some n →
      pyFind base (str "submit.php") = (k : Int) →
      summaryUrl base response
        = some (base.take k ++ str "buildSummary.php?buildid=" ++ n))
    ∧ (buildIdSearch response = none → summaryUrl base response = none) := by
  constructor
  · intro n k hid hfind
    unfold summaryUrl
    rw [hid, hfind, pySlice0_ofNat]
  · intro hid
    unfold summaryUrl
    rw [hid]

theorem c6_witness :
    summaryUrl (str "http://x/submit.php?project=P") (str "ok <buildId>42</buildId>")
      = some (str "http://x/buildSummary.php?buildid=42") := by
  rw [(c6_summary_link (str "http://x/submit.php?project=P")
      (str "ok <buildId>42</buildId>")).1 (str "42") 9 (by decide) (by decide)]
  decide

/-- C7 counterexample: the claim says the PUT request URL carries the
query parameters in the order build, site, stamp, MD5.  The code passes a
Python 2 dict to `urlencode`, which iterates it in CPython 2.7 hash-slot
order — stamp, MD5, build, site — so at a concrete input the request URL
is not the claimed one. -/
theorem c7_counterexample_params_order :
    ¬ (uploadRequestUrl (str "U") (str "b1") (str "s1") (str "t1") (str "m1")
        = some (str "U&build=b1&site=s1&stamp=t1&MD5=m1")) := by
  decide

/-- C7 amended: with a configured upload destination, the PUT request URL
is the configured base URL followed by the query parameters `stamp`,
`MD5`, `build` and `site` — CPython 2.7's dict iteration order for the
parameter dict — carrying the (URL-encoded) build stamp, checksum, build
name and site name, in exactly that order. -/
theorem c7_upload_url_params_order
    (cdash_upload_url buildname site buildstamp md5sum : Str)
    (h : cdash_upload_url ≠ []) :
    uploadRequestUrl cdash_upload_url buildname site buildstamp md5sum
      = some (cdash_upload_url ++ str "&stamp=" ++ quote_plus buildstamp
          ++ str "&MD5=" ++ quote_plus md5sum
          ++ str "&build=" ++ quote_plus buildname
          ++ str "&site=" ++ quote_plus site) := by
  unfold uploadRequestUrl
  rw [if_neg h]
  simp only [urlencode, List.append_assoc]
  rfl

theorem c7_witness :
    uploadRequestUrl (str "https://x/cdash/submit.php?project=Spack") (str "a b")
        (str "host1") (str "20181012-0100-Experimental") (str "0f343b09")
      = some (str
          "https://x/cdash/submit.php?project=Spack&stamp=20181012-0100-Experimental&MD5=0f343b09&build=a+b&site=host1") := by
  rw [c7_upload_url_params_order _ _ _ _ _ (by decide)]
  decide

/-- C8: the substring-gated marker detection of the line loop is
equivalent to running the regular expression unconditionally — on every
line the gated match returns exactly the same result (including the
extracted phase name) as the ungated search. -/
theorem c8_gated_matches_ungated (line : Str) :
    gatedMarkerMatch line = regexSearch line :=
  gated_eq_search line

/-- C9: the `cdash_phase` cursor (cdash.py line 93) lives outside the
package loop and is never reset between units.  If the first unit's output
ends with a coarse phase `c` active and the second unit's output contains
no phase-boundary marker, every line of the second unit's output is
appended, escaped, to `c`'s log buffer rather than being discarded. -/
theorem c9_cursor_not_reset_between_units (t0 : Nat) (p1 p2 : Package)
    (out2 c : Str) (pd1 : PhaseData)
    (h1 : (processPackage (segInit t0) p1).cdash_phase = c)
    (hcne : c ≠ [])
    (h2 : p2.stdout = some out2)
    (h3 : getPhase (processPackage (segInit t0) p1).report_data c = some pd1)
    (hnm : ∀ l ∈ splitlines out2, regexSearch l = none) :
    getPhase (segmentSpecs t0 [[p1, p2]]).report_data c
      = some { pd1 with loglines := pd1.loglines ++ (splitlines out2).map xmlEscape } := by
  have hseg : segmentSpecs t0 [[p1, p2]]
      = processPackage (processPackage (segInit t0) p1) p2 := rfl
  have hpp : processPackage (processPackage (segInit t0) p1) p2
      = (splitlines out2).foldl (processLine p2.name) (processPackage (segInit t0) p1) := by
    conv_lhs => rw [processPackage.eq_def]
    rw [h2]
  have hkey : getPhase (processPackage (segInit t0) p1).report_data
      (processPackage (segInit t0) p1).cdash_phase = some pd1 := by
    rw [h1]; exact h3
  have hne : (processPackage (segInit t0) p1).cdash_phase ≠ [] := by
    rw [h1]; exact hcne
  have hmain := seg_append_no_marker p2.name (splitlines out2)
    (processPackage (segInit t0) p1) pd1 hne hkey hnm
  rw [hseg, hpp, ← h1]
  exact hmain.2

def c9_p1 : Package :=
  { name := str "alpha", stdout := some (str "Executing phase: 'install'\nhello") }

def c9_p2 : Package := { name := str "beta", stdout := some (str "world\nmore") }

theorem c9_witness :
    getPhase (segmentSpecs 0 [[c9_p1, c9_p2]]).report_data (str "build")
      = some { loglines := [str "build output for alpha:", str "hello",
                            str "world", str "more"],
               status := 0, starttime := 0, endtime := 0, log := none,
               errors := none, warnings := none } := by
  rw [c9_cursor_not_reset_between_units 0 c9_p1 c9_p2 (str "world\nmore") (str "build")
      { loglines := [str "build output for alpha:", str "hello"], status := 0,
        starttime := 0, endtime := 0, log := none, errors := none, warnings := none }
      (by decide) (by decide) rfl (by decide) (by decide)]
  decide

/-- C10: when the configured upload base URL contains no `submit.php`,
Python's `find` returns `-1` and the slice `build_url[0:-1]` drops the
final character, so the summary link is the base URL minus its last
character followed by `buildSummary.php?buildid=` and the id. -/
theorem c10_no_submit_drops_last_char (base response n : Str)
    (hfind : pyFind base (str "submit.php") = -1)
    (hid : buildIdSearch response = some n) :
    summaryUrl base response
      = some (base.take (base.length - 1) ++ str "buildSummary.php?buildid=" ++ n) := by
  unfold summaryUrl
  rw [hid, hfind, pySlice0_neg_one]

theorem c10_witness :
    summaryUrl (str "http://x/upload.cgi") (str "<buildId>7</buildId>")
      = some (str "http://x/upload.cgbuildSummary.php?buildid=7") := by
  rw [c10_no_submit_drops_last_char (str "http://x/upload.cgi")
      (str "<buildId>7</buildId>") (str "7") (by decide) (by decide)]
  decide
